import Mathlib

/-!
Verification of the Alx_DjangoLearnLab repository.

This file gives a shallow embedding of the pieces of the repository that the
claims under scrutiny talk about, and proves (or refutes) each claim against
that embedding:

* `advanced-api-project/api`: the `BookFilter` custom filter methods
  (`filter_by_decade`, `filter_search`) and
  `BookSerializer.validate_publication_year`;
* `social_media_api`: the follow/unfollow endpoints, the like/unlike
  endpoints, the feed queryset, and `StandardResultsSetPagination`;
* `advanced_features_and_security/LibraryProject/relationship_app`:
  `role_redirect_view`.

Querysets are embedded as Lean lists of records, the database as an explicit
state record threaded through each request handler, HTTP responses as status
codes paired with the post-state.  Django ORM calls (`filter`, `get_or_create`,
`add`, `remove`, `find`) are given their documented meaning over those lists.
-/

namespace DjangoLab

/-! ### Python primitives used by the embedded code -/

/-- The numeric value of a decimal digit character, `none` otherwise. -/
def digitVal (c : Char) : Option Nat :=
  if '0' ≤ c ∧ c ≤ '9' then some (c.toNat - '0'.toNat) else none

/-- Model of the Python builtin `int()` on a character sequence, restricted to
non-empty all-digit inputs (the only inputs it receives in the embedded code:
the four-character prefix of a decade choice value).  `none` models the
`ValueError` raised on any other input. -/
def pyInt (cs : List Char) : Option Int :=
  if cs.isEmpty then none
  else
    (cs.foldl (fun acc c =>
      match acc, digitVal c with
      | some n, some d => some (n * 10 + d)
      | _, _ => none) (some 0)).map Int.ofNat

/-- The characters of a string, lower-cased character by character. -/
def lowerChars (s : String) : List Char := s.data.map Char.toLower

/-- Model of the Django `icontains` lookup: the lower-cased value occurs as a
contiguous substring of the lower-cased field. -/
def icontains (field value : String) : Bool :=
  decide (lowerChars value <:+: lowerChars field)

/-! ### advanced-api-project/api: models and `BookFilter` / `BookSerializer`

`api/models.py` declares `Book` with a `title`, an `author` foreign key (whose
`Author` carries a `name`), and an integer `publication_year`.  The filters
only ever read the book's title, its author's name and its publication year,
so a book row is embedded as exactly those three fields. -/

namespace Api

/-- A row of the `Book` table of `advanced-api-project`, joined with its
author's name (the filters access the author only through `author__name`). -/
structure Book where
  title : String
  author_name : String
  publication_year : Int
deriving DecidableEq, Repr

/-- The choice values offered by the `decade` `ChoiceFilter` of `BookFilter`
(`api/filters.py`); the `ChoiceFilter` validates the query parameter against
this list before `filter_by_decade` runs. -/
def decadeChoices : List String :=
  ["1900s", "1910s", "1920s", "1930s", "1940s", "1950s", "1960s",
   "1970s", "1980s", "1990s", "2000s", "2010s", "2020s"]

/-- `BookFilter.filter_by_decade` (`api/filters.py` lines 114-128): an empty
value returns the queryset unchanged; otherwise `decade_start = int(value[:4])`
and the queryset is filtered to
`publication_year__gte=decade_start, publication_year__lte=decade_start + 9`.
`none` models the `ValueError` that `int` would raise on a non-numeric
prefix. -/
def filter_by_decade (qs : List Book) (value : String) : Option (List Book) :=
  if value = "" then some qs
  else
    match pyInt (value.data.take 4) with
    | none => none
    | some decade_start =>
        some (qs.filter (fun b =>
          decide (decade_start ≤ b.publication_year) &&
          decide (b.publication_year ≤ decade_start + 9)))

/-- `BookFilter.filter_search` (`api/filters.py` lines 130-140): an empty value
returns the queryset unchanged; otherwise the queryset is filtered by
`Q(title__icontains=value) | Q(author__name__icontains=value)`. -/
def filter_search (qs : List Book) (value : String) : List Book :=
  if value = "" then qs
  else qs.filter (fun b => icontains b.title value || icontains b.author_name value)

/-- `BookSerializer.validate_publication_year` (`api/serializers.py` lines
24-44): raises a `ValidationError` when the value exceeds the current year,
otherwise returns the value unchanged. -/
def validate_publication_year (current_year : Int) (value : Int) : Except String Int :=
  if value > current_year then
    Except.error ("Publication year cannot be in the future. Current year is "
      ++ toString current_year ++ ".")
  else Except.ok value

end Api

/-! ### social_media_api: accounts and posts

`accounts/models.py` declares `CustomUser` with a many-to-many `followers`
relation through the `Follow` model (`follower`, `following`,
`unique_together`), whose reverse accessor `user.following` is the set of
users that `user` follows.  The posts app declares `Post` (author,
created_at), `Like` (user, post, one row per pair) and `Notification`
(recipient, actor, verb, target).  The database is embedded as explicit lists
of rows; a follow edge `(u, v)` means `u` follows `v`. -/

namespace Social

/-- Modelled from the spec: `posts/models.py` (the `Post`, `Like` and
`Notification` declarations) is not under `src/`; the spec describes "a
social-media API with follow/like/feed endpoints" whose "Django models map
1:1 to database tables", and the views read exactly a post's primary key,
author and creation time, so a `Post` row is embedded as those three
fields. -/
structure Post where
  id : Nat
  author : Nat
  created_at : Nat
deriving DecidableEq, Repr

/-- Modelled from the spec: the `Notification` model declaration is not under
`src/`; `LikePostView.post` creates a row from exactly the keyword arguments
`recipient`, `actor`, `verb`, `target`, so a row is embedded as those four
fields. -/
structure Notif where
  recipient : Nat
  actor : Nat
  verb : String
  target : Nat
deriving DecidableEq, Repr

/-- The relational state of the social-media app: user ids, follow edges
(`(follower, followed)`), posts, likes (`(user, post id)`) and
notifications. -/
structure DB where
  users : List Nat
  follows : List (Nat × Nat)
  posts : List Post
  likes : List (Nat × Nat)
  notifs : List Notif
deriving Repr

/-- `Post.objects.get(pk=pk)` / `get_object_or_404(Post, pk=pk)`:
the post row with primary key `pk`, if any. -/
def findPost (db : DB) (pk : Nat) : Option Post :=
  db.posts.find? (fun p => p.id == pk)

/-- `FollowUserView.post` (`accounts/views.py` lines 63-76):
`get_object_or_404` on the target id (404 when absent), 400 when the target
is the requester, 400 when `request.user.following.filter(id=...).exists()`,
otherwise `request.user.following.add(to_follow)` and 200.  Returns the
post-state and the HTTP status. -/
def follow_user (db : DB) (requester user_id : Nat) : DB × Nat :=
  if user_id ∈ db.users then
    if user_id = requester then (db, 400)
    else if (requester, user_id) ∈ db.follows then (db, 400)
    else ({ db with follows := db.follows ++ [(requester, user_id)] }, 200)
  else (db, 404)

/-- `UnfollowUserView.post` (`accounts/views.py` lines 78-91): 404 when the
target id is absent, 400 when the target is the requester, 400 when the edge
does not exist, otherwise `request.user.following.remove(to_unfollow)`
(deleting the unique `Follow` row) and 200. -/
def unfollow_user (db : DB) (requester user_id : Nat) : DB × Nat :=
  if user_id ∈ db.users then
    if user_id = requester then (db, 400)
    else if (requester, user_id) ∈ db.follows then
      ({ db with follows := db.follows.erase (requester, user_id) }, 200)
    else (db, 400)
  else (db, 404)

/-- `LikePostView.post` (`posts/views.py` lines 11-27): `get_object_or_404` on
the post (404 when absent); `Like.objects.get_or_create(user, post)` — when
the row already exists, 400 and no change; otherwise the like row is created,
a notification for the post's author is created exactly when the author is
not the requester, and 200 is returned. -/
def like_post (db : DB) (user pk : Nat) : DB × Nat :=
  match findPost db pk with
  | none => (db, 404)
  | some post =>
      if (user, pk) ∈ db.likes then (db, 400)
      else
        let db1 := { db with likes := db.likes ++ [(user, pk)] }
        if post.author ≠ user then
          ({ db1 with
             notifs := db1.notifs ++ [⟨post.author, user, "liked your post", pk⟩] }, 200)
        else (db1, 200)

/-- `UnlikePostView.post` (`posts/views.py` lines 29-39): `get_object_or_404`
on the post; `Like.objects.get(user, post).delete()` deletes the unique like
row and returns 200; `Like.DoesNotExist` yields 400 and no change. -/
def unlike_post (db : DB) (user pk : Nat) : DB × Nat :=
  match findPost db pk with
  | none => (db, 404)
  | some _ =>
      if (user, pk) ∈ db.likes then
        ({ db with likes := db.likes.erase (user, pk) }, 200)
      else (db, 400)

/-- The comparison handed to the sort that models `order_by('-created_at')`:
newest first. -/
def newerFirst (a b : Post) : Bool := decide (b.created_at ≤ a.created_at)

/-- The queryset built by the `feed` endpoint (`posts/views.py` lines 76-88):
`Post.objects.filter(author__in=user.following.all()).order_by('-created_at')`.
-/
def feed_queryset (db : DB) (user : Nat) : List Post :=
  (db.posts.filter (fun p => decide ((user, p.author) ∈ db.follows))).mergeSort newerFirst

/-- One call to the follow or unfollow endpoint, as a step of the
follow-relation transition system. -/
inductive FollowOp where
  | follow (requester user_id : Nat)
  | unfollow (requester user_id : Nat)
deriving DecidableEq, Repr

/-- The state reached after one endpoint call (the HTTP status is
discarded). -/
def applyFollowOp (db : DB) : FollowOp → DB
  | FollowOp.follow r t => (follow_user db r t).1
  | FollowOp.unfollow r t => (unfollow_user db r t).1

/-- The invariant: no user follows themself. -/
def NoSelfFollow (db : DB) : Prop := ∀ u : Nat, (u, u) ∉ db.follows

/-! ### social_media_api: pagination

`StandardResultsSetPagination` (`posts/views.py` lines 43-46) sets
`page_size = 10`, `page_size_query_param = 'page_size'`, `max_page_size =
100` on DRF's `PageNumberPagination`.  DRF computes the page size as
`_positive_int(request.query_params['page_size'], strict=True,
cutoff=max_page_size)` — the minimum of the requested positive integer and
the cutoff — falling back to `page_size` when the parameter is absent, zero,
negative or unparseable; the page is then the corresponding slice of the
queryset. -/

/-- The three pagination attributes a DRF `PageNumberPagination` subclass
configures. -/
structure PaginationConf where
  page_size : Nat
  max_page_size : Nat
deriving Repr

/-- `StandardResultsSetPagination` as configured in `posts/views.py`. -/
def StandardResultsSetPagination : PaginationConf :=
  { page_size := 10, max_page_size := 100 }

/-- DRF `PageNumberPagination.get_page_size`: `none` stands for an absent or
unparseable `page_size` query parameter. -/
def get_page_size (conf : PaginationConf) (requested : Option Int) : Nat :=
  match requested with
  | some n => if 0 < n then min n.toNat conf.max_page_size else conf.page_size
  | none => conf.page_size

/-- The slice of the queryset that page number `page` (1-based) receives. -/
def paginate_queryset {α : Type} (conf : PaginationConf) (items : List α)
    (page : Nat) (requested : Option Int) : List α :=
  let sz := get_page_size conf requested
  (items.drop ((page - 1) * sz)).take sz

end Social

/-! ### relationship_app: role-based redirect

`relationship_app/models.py` declares `UserProfile` (one-to-one `user`,
`role` in Admin/Librarian/Member).  `role_utils.role_redirect_view` reads
`request.user.userprofile.role` and redirects by role, creating a Member
profile when none exists. -/

namespace Rel

/-- A row of the `UserProfile` table. -/
structure UserProfile where
  user : Nat
  role : String
deriving DecidableEq, Repr

/-- The `UserProfile` table. -/
structure ProfilesDB where
  profiles : List UserProfile
deriving Repr

/-- `role_redirect_view` (`relationship_app/role_utils.py` lines 7-21): reads
the logged-in user's profile role and redirects — `'Admin'` to `admin_view`,
`'Librarian'` to `librarian_view`, anything else to `member_view`; when the
profile does not exist, a profile with role `'Member'` is created and the
redirect goes to `member_view`.  Returns the post-state and the name of the
URL redirected to. -/
def role_redirect_view (db : ProfilesDB) (user : Nat) : ProfilesDB × String :=
  match db.profiles.find? (fun p => p.user == user) with
  | some p =>
      if p.role = "Admin" then (db, "admin_view")
      else if p.role = "Librarian" then (db, "librarian_view")
      else (db, "member_view")
  | none =>
      ({ profiles := db.profiles ++ [⟨user, "Member"⟩] }, "member_view")

end Rel

/-! ## Theorems -/

/-- Applying `filter_by_decade` to a non-empty value whose four-character
prefix parses as `d` filters the queryset to `d ≤ publication_year ≤ d + 9`. -/
theorem filter_by_decade_eq (qs : List Api.Book) (value : String) (d : Int)
    (hne : value ≠ "") (hd : pyInt (value.data.take 4) = some d) :
    Api.filter_by_decade qs value =
      some (qs.filter (fun b =>
        decide (d ≤ b.publication_year) && decide (b.publication_year ≤ d + 9))) := by
  unfold Api.filter_by_decade
  rw [if_neg hne, hd]

/-- Claim C1: for every book queryset and every non-empty decade choice value,
`BookFilter.filter_by_decade` returns exactly the books whose publication year
`y` satisfies `d ≤ y ≤ d + 9`, where `d` is the integer denoted by the first
four characters of the choice value; for an empty value it returns the
queryset unchanged. -/
theorem filter_by_decade_spec (qs : List Api.Book) (value : String) :
    (value ∈ Api.decadeChoices →
      ∃ d : Int, pyInt (value.data.take 4) = some d ∧
        ∃ res, Api.filter_by_decade qs value = some res ∧
          ∀ b, b ∈ res ↔
            b ∈ qs ∧ d ≤ b.publication_year ∧ b.publication_year ≤ d + 9)
    ∧ Api.filter_by_decade qs "" = some qs := by
  constructor
  · intro hmem
    have hall : ∀ v ∈ Api.decadeChoices,
        v ≠ "" ∧ (pyInt (v.data.take 4)).isSome := by decide
    obtain ⟨h1, h2⟩ := hall value hmem
    obtain ⟨d, hd⟩ := Option.isSome_iff_exists.mp h2
    refine ⟨d, hd, _, filter_by_decade_eq qs value d h1 hd, ?_⟩
    intro b
    simp [List.mem_filter, Bool.and_eq_true, decide_eq_true_eq]
  · simp [Api.filter_by_decade]

/-- Witness for C1: the `'1990s'` choice on a two-book queryset keeps exactly
the book published between 1990 and 1999. -/
theorem filter_by_decade_spec_witness :
    ∃ d : Int, pyInt (("1990s" : String).data.take 4) = some d ∧
      ∃ res, Api.filter_by_decade
          ([⟨"It", "Stephen King", 1986⟩,
            ⟨"Jurassic Park", "Michael Crichton", 1990⟩] : List Api.Book)
          "1990s" = some res ∧
        ∀ b, b ∈ res ↔
          b ∈ ([⟨"It", "Stephen King", 1986⟩,
                ⟨"Jurassic Park", "Michael Crichton", 1990⟩] : List Api.Book) ∧
            d ≤ b.publication_year ∧ b.publication_year ≤ d + 9 :=
  (filter_by_decade_spec _ "1990s").1 (by decide)

/-- Claim C3: `BookSerializer.validate_publication_year` raises a
`ValidationError` if and only if the given year is strictly greater than the
current year, and otherwise returns the year unchanged. -/
theorem validate_publication_year_spec (current_year value : Int) :
    ((∃ msg, Api.validate_publication_year current_year value = Except.error msg)
        ↔ current_year < value)
    ∧ (value ≤ current_year →
        Api.validate_publication_year current_year value = Except.ok value) := by
  unfold Api.validate_publication_year
  by_cases h : current_year < value
  · rw [if_pos h]
    exact ⟨⟨fun _ => h, fun _ => ⟨_, rfl⟩⟩,
           fun hle => absurd h (not_lt.mpr hle)⟩
  · rw [if_neg h]
    exact ⟨⟨fun ⟨msg, hmsg⟩ => Except.noConfusion hmsg, fun hlt => absurd hlt h⟩,
           fun _ => rfl⟩

/-- Witness for C3: in 2026, the year 2030 is rejected and the year 2020 is
returned unchanged. -/
theorem validate_publication_year_spec_witness :
    (∃ msg, Api.validate_publication_year 2026 2030 = Except.error msg)
    ∧ Api.validate_publication_year 2026 2020 = Except.ok 2020 :=
  ⟨(validate_publication_year_spec 2026 2030).1.mpr (by decide),
   (validate_publication_year_spec 2026 2020).2 (by decide)⟩

/-- Claim C6: for every non-empty search value, `BookFilter.filter_search`
keeps exactly the books whose title contains the value case-insensitively or
whose author name contains the value case-insensitively, and an empty value
leaves the queryset unchanged. -/
theorem filter_search_spec (qs : List Api.Book) (value : String) :
    (value ≠ "" →
      ∀ b, b ∈ Api.filter_search qs value ↔
        b ∈ qs ∧ (lowerChars value <:+: lowerChars b.title
                  ∨ lowerChars value <:+: lowerChars b.author_name))
    ∧ Api.filter_search qs "" = qs := by
  constructor
  · intro hne b
    unfold Api.filter_search
    rw [if_neg hne]
    simp [List.mem_filter, icontains, Bool.or_eq_true, decide_eq_true_eq]
  · simp [Api.filter_search]

/-- Claim C4: for every authenticated requester and existing target user,
`FollowUserView.post` returns 400 and leaves the follow relation unchanged
when the target is the requester or is already followed; otherwise it adds
exactly the single edge `(requester, target)`, changes no other edge, and
returns 200. -/
theorem follow_user_spec (db : Social.DB) (requester target : Nat)
    (ht : target ∈ db.users) :
    (target = requester ∨ (requester, target) ∈ db.follows →
        Social.follow_user db requester target = (db, 400))
    ∧ (target ≠ requester → (requester, target) ∉ db.follows →
        (Social.follow_user db requester target).2 = 200
        ∧ (Social.follow_user db requester target).1.follows
            = db.follows ++ [(requester, target)]
        ∧ ∀ e, e ∈ (Social.follow_user db requester target).1.follows ↔
            e ∈ db.follows ∨ e = (requester, target)) := by
  unfold Social.follow_user
  rw [if_pos ht]
  constructor
  · rintro (rfl | hmem)
    · rw [if_pos rfl]
    · by_cases h : target = requester
      · rw [if_pos h]
      · rw [if_neg h, if_pos hmem]
  · intro hne hmem
    rw [if_neg hne, if_neg hmem]
    refine ⟨rfl, rfl, ?_⟩
    intro e
    simp [List.mem_append]

/-- Witness for C4: in a two-user database with no edges, user 1 following
user 2 succeeds and creates exactly that edge. -/
theorem follow_user_spec_witness :
    (Social.follow_user ⟨[1, 2], [], [], [], []⟩ 1 2).2 = 200
    ∧ (Social.follow_user ⟨[1, 2], [], [], [], []⟩ 1 2).1.follows
        = [] ++ [(1, 2)]
    ∧ ∀ e, e ∈ (Social.follow_user ⟨[1, 2], [], [], [], []⟩ 1 2).1.follows ↔
        e ∈ ([] : List (Nat × Nat)) ∨ e = (1, 2) :=
  (follow_user_spec ⟨[1, 2], [], [], [], []⟩ 1 2 (by decide)).2
    (by decide) (by decide)

/-- A single follow or unfollow call preserves the no-self-follow
invariant. -/
theorem applyFollowOp_no_self (db : Social.DB) (h : Social.NoSelfFollow db)
    (op : Social.FollowOp) : Social.NoSelfFollow (Social.applyFollowOp db op) := by
  cases op with
  | follow r t =>
      have key : (Social.follow_user db r t).1.follows = db.follows
          ∨ ((Social.follow_user db r t).1.follows = db.follows ++ [(r, t)]
             ∧ ¬ t = r) := by
        unfold Social.follow_user
        split_ifs with hu hr hm
        · exact Or.inl rfl
        · exact Or.inl rfl
        · exact Or.inr ⟨rfl, hr⟩
        · exact Or.inl rfl
      intro u hmem
      simp only [Social.applyFollowOp] at hmem
      rcases key with hk | ⟨hk, hne⟩
      · exact h u (hk ▸ hmem)
      · rcases List.mem_append.mp (hk ▸ hmem) with h1 | h2
        · exact h u h1
        · simp only [List.mem_singleton, Prod.mk.injEq] at h2
          exact hne (by omega)
  | unfollow r t =>
      intro u hmem
      refine h u ?_
      simp only [Social.applyFollowOp] at hmem
      unfold Social.unfollow_user at hmem
      split_ifs at hmem
      · exact hmem
      · exact List.mem_of_mem_erase hmem
      · exact hmem
      · exact hmem

/-- Claim C9: starting from a state in which no user follows themself, every
sequence of follow/unfollow endpoint calls preserves the invariant that no
user follows themself. -/
theorem no_self_follow_invariant (ops : List Social.FollowOp) (db : Social.DB)
    (h : Social.NoSelfFollow db) :
    Social.NoSelfFollow (ops.foldl Social.applyFollowOp db) := by
  induction ops generalizing db with
  | nil => exact h
  | cons op rest ih => exact ih _ (applyFollowOp_no_self db h op)

/-- Witness for C9: a concrete sequence of calls, including an attempted
self-follow, keeps the invariant. -/
theorem no_self_follow_invariant_witness :
    Social.NoSelfFollow
      ([Social.FollowOp.follow 1 2, Social.FollowOp.follow 1 1,
        Social.FollowOp.follow 2 1,
        Social.FollowOp.unfollow 1 2].foldl Social.applyFollowOp
        ⟨[1, 2], [], [], [], []⟩) :=
  no_self_follow_invariant _ _ (by intro u; exact List.not_mem_nil _)

/-- Claim C2: for every authenticated user whose follow relation has no
self-edge, the feed queryset contains exactly the posts whose author the user
follows — hence no post by a non-followed author and no post by the user
themself — ordered by creation date descending. -/
theorem feed_spec (db : Social.DB) (user : Nat)
    (hself : (user, user) ∉ db.follows) :
    (∀ p, p ∈ Social.feed_queryset db user ↔
        p ∈ db.posts ∧ (user, p.author) ∈ db.follows)
    ∧ (∀ p ∈ Social.feed_queryset db user, p.author ≠ user)
    ∧ List.Sorted (fun a b : Social.Post => b.created_at ≤ a.created_at)
        (Social.feed_queryset db user) := by
  have hmem : ∀ p, p ∈ Social.feed_queryset db user ↔
      p ∈ db.posts ∧ (user, p.author) ∈ db.follows := by
    intro p
    unfold Social.feed_queryset
    simp [List.mem_mergeSort, List.mem_filter]
  refine ⟨hmem, ?_, ?_⟩
  · intro p hp heq
    have hin := ((hmem p).mp hp).2
    rw [heq] at hin
    exact hself hin
  · have htrans : ∀ a b c : Social.Post, Social.newerFirst a b = true →
        Social.newerFirst b c = true → Social.newerFirst a c = true := by
      intro a b c h1 h2
      simp only [Social.newerFirst, decide_eq_true_eq] at h1 h2 ⊢
      omega
    have htot : ∀ a b : Social.Post,
        (Social.newerFirst a b || Social.newerFirst b a) = true := by
      intro a b
      simp only [Social.newerFirst, Bool.or_eq_true, decide_eq_true_eq]
      omega
    have hs := List.sorted_mergeSort htrans htot
      (db.posts.filter (fun p => decide ((user, p.author) ∈ db.follows)))
    unfold Social.feed_queryset
    refine List.Pairwise.imp ?_ hs
    intro a b hab
    simpa [Social.newerFirst] using hab

/-- Witness for C2: user 1 follows only user 2; the feed holds exactly the
posts authored by user 2, newest first. -/
theorem feed_spec_witness :
    (∀ p, p ∈ Social.feed_queryset
        ⟨[1, 2, 3], [(1, 2)], [⟨1, 2, 5⟩, ⟨2, 3, 7⟩, ⟨3, 2, 9⟩, ⟨4, 1, 11⟩], [], []⟩ 1 ↔
        p ∈ ([⟨1, 2, 5⟩, ⟨2, 3, 7⟩, ⟨3, 2, 9⟩, ⟨4, 1, 11⟩] : List Social.Post)
          ∧ (1, p.author) ∈ [(1, 2)])
    ∧ (∀ p ∈ Social.feed_queryset
        ⟨[1, 2, 3], [(1, 2)], [⟨1, 2, 5⟩, ⟨2, 3, 7⟩, ⟨3, 2, 9⟩, ⟨4, 1, 11⟩], [], []⟩ 1,
        p.author ≠ 1)
    ∧ List.Sorted (fun a b : Social.Post => b.created_at ≤ a.created_at)
        (Social.feed_queryset
          ⟨[1, 2, 3], [(1, 2)], [⟨1, 2, 5⟩, ⟨2, 3, 7⟩, ⟨3, 2, 9⟩, ⟨4, 1, 11⟩], [], []⟩ 1) :=
  feed_spec _ 1 (by decide)

/-- Witness for C6: searching `'HERB'` keeps the Frank Herbert book and drops
the other. -/
theorem filter_search_spec_witness :
    ∀ b, b ∈ Api.filter_search
        ([⟨"Dune", "Frank Herbert", 1965⟩,
          ⟨"Emma", "Jane Austen", 1815⟩] : List Api.Book) "HERB" ↔
      b ∈ ([⟨"Dune", "Frank Herbert", 1965⟩,
            ⟨"Emma", "Jane Austen", 1815⟩] : List Api.Book) ∧
        (lowerChars "HERB" <:+: lowerChars b.title
         ∨ lowerChars "HERB" <:+: lowerChars b.author_name) :=
  (filter_search_spec _ "HERB").1 (by decide)

/-- Liking an already-liked post is rejected with 400 and changes nothing. -/
theorem like_post_already (db : Social.DB) (user pk : Nat) (post : Social.Post)
    (hp : Social.findPost db pk = some post) (hmem : (user, pk) ∈ db.likes) :
    Social.like_post db user pk = (db, 400) := by
  unfold Social.like_post
  rw [hp]
  simp only [if_pos hmem]

/-- Liking a post not yet liked returns 200, appends exactly one like row,
leaves the posts table unchanged, and creates one notification for the post's
author exactly when the author is not the requester. -/
theorem like_post_new (db : Social.DB) (user pk : Nat) (post : Social.Post)
    (hp : Social.findPost db pk = some post) (hmem : (user, pk) ∉ db.likes) :
    (Social.like_post db user pk).2 = 200
    ∧ (Social.like_post db user pk).1.likes = db.likes ++ [(user, pk)]
    ∧ (Social.like_post db user pk).1.posts = db.posts
    ∧ (post.author ≠ user →
        (Social.like_post db user pk).1.notifs
          = db.notifs ++ [⟨post.author, user, "liked your post", pk⟩])
    ∧ (post.author = user →
        (Social.like_post db user pk).1.notifs = db.notifs) := by
  unfold Social.like_post
  rw [hp]
  simp only [if_neg hmem]
  by_cases ha : post.author = user
  · rw [if_neg (not_not_intro ha)]
    exact ⟨rfl, rfl, rfl, fun hc => absurd ha hc, fun _ => rfl⟩
  · rw [if_pos ha]
    exact ⟨rfl, rfl, rfl, fun _ => rfl, fun hc => absurd hc ha⟩

/-- Claim C5: for every authenticated user and existing post,
`LikePostView.post` on a post the user already liked returns 400 and changes
nothing; on a post not yet liked it creates exactly one like row for the pair
and, exactly when the post's author is a different user, one notification
addressed to the post's author. -/
theorem like_post_spec (db : Social.DB) (user pk : Nat) (post : Social.Post)
    (hp : Social.findPost db pk = some post) :
    ((user, pk) ∈ db.likes → Social.like_post db user pk = (db, 400))
    ∧ ((user, pk) ∉ db.likes →
        (Social.like_post db user pk).2 = 200
        ∧ (Social.like_post db user pk).1.likes = db.likes ++ [(user, pk)]
        ∧ (post.author ≠ user →
            (Social.like_post db user pk).1.notifs
              = db.notifs ++ [⟨post.author, user, "liked your post", pk⟩])
        ∧ (post.author = user →
            (Social.like_post db user pk).1.notifs = db.notifs)) := by
  constructor
  · exact like_post_already db user pk post hp
  · intro hmem
    obtain ⟨h1, h2, _, h3, h4⟩ := like_post_new db user pk post hp hmem
    exact ⟨h1, h2, h3, h4⟩

/-- Witness for C5: user 1 likes post 7 authored by user 2 — one like row and
one notification for user 2 are created. -/
theorem like_post_spec_witness :
    (Social.like_post ⟨[1, 2], [], [⟨7, 2, 5⟩], [], []⟩ 1 7).2 = 200
    ∧ (Social.like_post ⟨[1, 2], [], [⟨7, 2, 5⟩], [], []⟩ 1 7).1.likes
        = [] ++ [(1, 7)]
    ∧ ((Social.Post.mk 7 2 5).author ≠ 1 →
        (Social.like_post ⟨[1, 2], [], [⟨7, 2, 5⟩], [], []⟩ 1 7).1.notifs
          = [] ++ [⟨(Social.Post.mk 7 2 5).author, 1, "liked your post", 7⟩])
    ∧ ((Social.Post.mk 7 2 5).author = 1 →
        (Social.like_post ⟨[1, 2], [], [⟨7, 2, 5⟩], [], []⟩ 1 7).1.notifs = []) :=
  (like_post_spec ⟨[1, 2], [], [⟨7, 2, 5⟩], [], []⟩ 1 7 ⟨7, 2, 5⟩ (by decide)).2
    (by decide)

/-- Claim C10: for every authenticated user and existing post the user has not
yet liked, `LikePostView.post` followed by `UnlikePostView.post` restores the
original set of like rows, and both calls return 200. -/
theorem like_unlike_roundtrip (db : Social.DB) (user pk : Nat)
    (post : Social.Post) (hp : Social.findPost db pk = some post)
    (hl : (user, pk) ∉ db.likes) :
    (Social.like_post db user pk).2 = 200
    ∧ (Social.unlike_post (Social.like_post db user pk).1 user pk).2 = 200
    ∧ (Social.unlike_post (Social.like_post db user pk).1 user pk).1.likes
        = db.likes := by
  obtain ⟨h200, hlikes, hposts, _, _⟩ := like_post_new db user pk post hp hl
  have hp1 : Social.findPost (Social.like_post db user pk).1 pk = some post := by
    unfold Social.findPost
    rw [hposts]
    exact hp
  have hmem1 : (user, pk) ∈ (Social.like_post db user pk).1.likes := by
    rw [hlikes]
    exact List.mem_append_right _ (List.mem_singleton.mpr rfl)
  refine ⟨h200, ?_, ?_⟩
  · unfold Social.unlike_post
    rw [hp1]
    simp only [if_pos hmem1]
  · unfold Social.unlike_post
    rw [hp1]
    simp only [if_pos hmem1]
    show (Social.like_post db user pk).1.likes.erase (user, pk) = db.likes
    rw [hlikes, List.erase_append_right _ hl, List.erase_cons_head,
      List.append_nil]

/-- Witness for C10: like then unlike on a fresh post leaves the like table
as it started. -/
theorem like_unlike_roundtrip_witness :
    (Social.like_post ⟨[1, 2], [], [⟨7, 2, 5⟩], [(2, 7)], []⟩ 1 7).2 = 200
    ∧ (Social.unlike_post
        (Social.like_post ⟨[1, 2], [], [⟨7, 2, 5⟩], [(2, 7)], []⟩ 1 7).1 1 7).2 = 200
    ∧ (Social.unlike_post
        (Social.like_post ⟨[1, 2], [], [⟨7, 2, 5⟩], [(2, 7)], []⟩ 1 7).1 1 7).1.likes
        = [(2, 7)] :=
  like_unlike_roundtrip ⟨[1, 2], [], [⟨7, 2, 5⟩], [(2, 7)], []⟩ 1 7 ⟨7, 2, 5⟩
    (by decide) (by decide)

/-- Claim C7: for every logged-in user, `role_redirect_view` redirects to the
admin dashboard exactly when the user's profile role is `'Admin'`, to the
librarian dashboard exactly when it is `'Librarian'`, and to the member
dashboard for every other role; a user with no profile has a `'Member'`
profile created and is redirected to the member dashboard. -/
theorem role_redirect_view_spec (db : Rel.ProfilesDB) (user : Nat) :
    (∀ p, db.profiles.find? (fun q => q.user == user) = some p →
        ((Rel.role_redirect_view db user).2 = "admin_view" ↔ p.role = "Admin")
        ∧ ((Rel.role_redirect_view db user).2 = "librarian_view" ↔
            p.role = "Librarian")
        ∧ (p.role ≠ "Admin" → p.role ≠ "Librarian" →
            (Rel.role_redirect_view db user).2 = "member_view")
        ∧ (Rel.role_redirect_view db user).1 = db)
    ∧ (db.profiles.find? (fun q => q.user == user) = none →
        (Rel.role_redirect_view db user).1.profiles
            = db.profiles ++ [⟨user, "Member"⟩]
        ∧ (Rel.role_redirect_view db user).2 = "member_view") := by
  constructor
  · intro p hp
    have hview : Rel.role_redirect_view db user =
        (if p.role = "Admin" then (db, "admin_view")
         else if p.role = "Librarian" then (db, "librarian_view")
         else (db, "member_view")) := by
      unfold Rel.role_redirect_view
      rw [hp]
    by_cases h1 : p.role = "Admin"
    · rw [hview, if_pos h1]
      dsimp only
      refine ⟨⟨fun _ => h1, fun _ => rfl⟩, ⟨?_, ?_⟩, fun hA _ => absurd h1 hA, rfl⟩
      · intro hc
        exact absurd hc (by decide)
      · intro hc
        rw [h1] at hc
        exact absurd hc (by decide)
    · rw [hview, if_neg h1]
      by_cases h2 : p.role = "Librarian"
      · rw [if_pos h2]
        dsimp only
        refine ⟨⟨?_, ?_⟩, ⟨fun _ => h2, fun _ => rfl⟩, fun _ hL => absurd h2 hL, rfl⟩
        · intro hc
          exact absurd hc (by decide)
        · intro hc
          rw [h2] at hc
          exact absurd hc (by decide)
      · rw [if_neg h2]
        dsimp only
        refine ⟨⟨?_, fun hc => absurd hc h1⟩, ⟨?_, fun hc => absurd hc h2⟩,
                fun _ _ => rfl, rfl⟩
        · intro hc
          exact absurd hc (by decide)
        · intro hc
          exact absurd hc (by decide)
  · intro hnone
    unfold Rel.role_redirect_view
    rw [hnone]
    exact ⟨rfl, rfl⟩

/-- Witness for C7: a librarian is sent to the librarian dashboard and the
table is untouched; a profile-less user gets a Member profile. -/
theorem role_redirect_view_spec_witness :
    (((Rel.role_redirect_view ⟨[⟨1, "Librarian"⟩]⟩ 1).2 = "admin_view" ↔
        (Rel.UserProfile.mk 1 "Librarian").role = "Admin")
      ∧ ((Rel.role_redirect_view ⟨[⟨1, "Librarian"⟩]⟩ 1).2 = "librarian_view" ↔
          (Rel.UserProfile.mk 1 "Librarian").role = "Librarian")
      ∧ ((Rel.UserProfile.mk 1 "Librarian").role ≠ "Admin" →
          (Rel.UserProfile.mk 1 "Librarian").role ≠ "Librarian" →
          (Rel.role_redirect_view ⟨[⟨1, "Librarian"⟩]⟩ 1).2 = "member_view")
      ∧ (Rel.role_redirect_view ⟨[⟨1, "Librarian"⟩]⟩ 1).1 = ⟨[⟨1, "Librarian"⟩]⟩)
    ∧ ((Rel.role_redirect_view ⟨[⟨1, "Librarian"⟩]⟩ 2).1.profiles
          = [⟨1, "Librarian"⟩] ++ [⟨2, "Member"⟩]
        ∧ (Rel.role_redirect_view ⟨[⟨1, "Librarian"⟩]⟩ 2).2 = "member_view") :=
  ⟨(role_redirect_view_spec ⟨[⟨1, "Librarian"⟩]⟩ 1).1 ⟨1, "Librarian"⟩ (by decide),
   (role_redirect_view_spec ⟨[⟨1, "Librarian"⟩]⟩ 2).2 (by decide)⟩

/-- Claim C8: every page produced by `StandardResultsSetPagination` holds at
most 100 items regardless of the `page_size` query parameter, and exactly 10
items per full page when no `page_size` parameter is given. -/
theorem pagination_spec {α : Type} (items : List α) (page : Nat)
    (requested : Option Int) :
    (Social.paginate_queryset Social.StandardResultsSetPagination items page
        requested).length ≤ 100
    ∧ (1 ≤ page → 10 * page ≤ items.length →
        (Social.paginate_queryset Social.StandardResultsSetPagination items page
          none).length = 10) := by
  constructor
  · have hsz : Social.get_page_size Social.StandardResultsSetPagination requested
        ≤ 100 := by
      unfold Social.get_page_size Social.StandardResultsSetPagination
      match requested with
      | none => simp
      | some n =>
          by_cases h : 0 < n
          · simp only [if_pos h]
            exact min_le_right _ _
          · simp only [if_neg h]
            omega
    unfold Social.paginate_queryset
    calc ((items.drop ((page - 1) *
            Social.get_page_size Social.StandardResultsSetPagination requested)).take
            (Social.get_page_size Social.StandardResultsSetPagination requested)).length
        ≤ Social.get_page_size Social.StandardResultsSetPagination requested := by
          rw [List.length_take]
          exact min_le_left _ _
      _ ≤ 100 := hsz
  · intro hpage hlen
    unfold Social.paginate_queryset Social.get_page_size
      Social.StandardResultsSetPagination
    simp only [List.length_take, List.length_drop]
    omega

/-- Witness for C8: on 25 items, a requested page size of 1000 is capped at
100, and page 2 with no parameter holds exactly 10 items. -/
theorem pagination_spec_witness :
    (Social.paginate_queryset Social.StandardResultsSetPagination
        (List.range 25) 2 (some 1000)).length ≤ 100
    ∧ (Social.paginate_queryset Social.StandardResultsSetPagination
        (List.range 25) 2 none).length = 10 :=
  ⟨(pagination_spec (List.range 25) 2 (some 1000)).1,
   (pagination_spec (List.range 25) 2 none).2 (by decide) (by decide)⟩

end DjangoLab
